import Mathlib

/-!
Verification of the Axon ERP custom API endpoints in
`axon_erp/api.py`: `get_boot`, `get_csrf_token` and `get_new_doc`.

The endpoints are thin wrappers over the Frappe framework.  The
framework itself (session store, permission engine, metadata engine,
secure hash generator, localization) is external to this repository,
so it is modelled abstractly: external pure lookups become fields of
an explicit environment record, and the mutable per-request state the
wrappers touch (the session data bag, the forced-persist side effect,
the hash generator's draw counter) becomes an explicit state record
threaded through each operation.  The wrapper bodies themselves are
translated line by line from the source.
-/

/- ===================== get_csrf_token ===================== -/

/-- Python truthiness of the session data bag's `csrf_token` attribute:
a missing attribute (`None`) and the empty string are falsy, any other
string is truthy.  This is the test `not frappe.local.session.data.csrf_token`
performs in the source. -/
def pyTruthy : Option String → Bool
  | none => false
  | some s => s != ""

/-- The per-request framework state touched by `get_csrf_token`:

* `csrf_token` — the session data bag's `csrf_token` field
  (`frappe.local.session.data.csrf_token`);
* `in_test` — the `frappe.flags.in_test` flag;
* `hashGen`, `hashCount` — the external secure generator
  `frappe.generate_hash()`, modelled as an abstract stream of values
  indexed by how many hashes have been drawn so far;
* `session_updates` — a counter of forced session persists
  (`frappe.local.session_obj.update(force=True)` calls), so the
  persistence side effect is observable. -/
structure CsrfState where
  csrf_token : Option String
  in_test : Bool
  hashGen : Nat → String
  hashCount : Nat
  session_updates : Nat

/-- `get_csrf_token` from `api.py`, translated line by line:

```python
if not frappe.local.session.data.csrf_token:
    frappe.local.session.data.csrf_token = frappe.generate_hash()
    if not frappe.flags.in_test:
        frappe.local.session_obj.update(force=True)
return {'csrf_token': frappe.local.session.data.csrf_token}
```

The returned Python dict `{'csrf_token': value}` is modelled as the
value of the session field at return time, paired with the final
state. -/
def get_csrf_token (s : CsrfState) : Option String × CsrfState :=
  let s' :=
    if ! pyTruthy s.csrf_token then
      let s1 : CsrfState :=
        { s with csrf_token := some (s.hashGen s.hashCount),
                 hashCount := s.hashCount + 1 }
      if ! s1.in_test then
        { s1 with session_updates := s1.session_updates + 1 }
      else s1
    else s
  (s'.csrf_token, s')

/-- Concrete session state with no token, used to witness the
token-creation claims. -/
def csrfFreshState : CsrfState :=
  { csrf_token := none
    in_test := false
    hashGen := fun n => "tok" ++ toString n
    hashCount := 0
    session_updates := 0 }

/-- Concrete session state that already holds a token, used to witness
the existing-token claims. -/
def csrfHeldState : CsrfState :=
  { csrf_token := some "existing-token"
    in_test := false
    hashGen := fun n => "tok" ++ toString n
    hashCount := 0
    session_updates := 0 }

/- ===================== get_boot ===================== -/

/-- A registered object-type (DocType) record in the framework's
metadata registry: its name, whether it is a child table and whether
it is a singleton. -/
structure RegDocType where
  name : String
  istable : Bool
  issingle : Bool
deriving DecidableEq

/-- The boot payload produced by the framework's session
initialization (`frappe.sessions.get()`): the caller's identity
marker, the object-type list, the module mapping and an informational
message.  Produced fresh per request, never persisted. -/
structure BootPayload where
  user : String
  doc_types : List String
  modules : List (String × String)
  message : String
deriving DecidableEq

/-- The session state visible to `get_boot`: the current caller's
identity (`"Guest"` when unauthenticated) and the session data bag's
token field, so that any token side effect would be observable. -/
structure BootState where
  user : String
  csrf_token : Option String
deriving DecidableEq

/-- The external framework services `get_boot` can reach:
`sessions_get` is `frappe.sessions.get()`, a per-caller
session-initialization lookup (a read, per the spec's side-effect
contract for this layer); `registered` is the framework's doctype
registry, needed to state what a complete object-type list would
contain. -/
structure BootEnv where
  sessions_get : String → BootPayload
  registered : List RegDocType

/-- `get_boot` from `api.py`, translated line by line:

```python
boot = frappe.sessions.get()
return boot
```

The wrapper performs the single external lookup and returns its value;
it makes no write, so the session state is passed through untouched. -/
def get_boot (env : BootEnv) (s : BootState) : BootPayload × BootState :=
  let boot := env.sessions_get s.user
  (boot, s)

/-- Modelled from the claim wording for the refinement comparison:
the boot endpoint returns exactly the value of the external
session-initialization lookup for the current caller, with no
modification, no added object-type list, no guest-specific branch and
no state change. -/
def get_boot_unmodified (env : BootEnv) (s : BootState) : BootPayload × BootState :=
  (env.sessions_get s.user, s)

/-- Concrete guest scenario: the external session layer hands back a
non-minimal payload (non-empty object-type list and module mapping)
even for the guest identity; the wrapper forwards it unchanged. -/
def guestEnv : BootEnv :=
  { sessions_get := fun u =>
      { user := u
        doc_types := ["ToDo"]
        modules := [("ToDo", "Desk")]
        message := "" }
    registered := [{ name := "ToDo", istable := false, issingle := false }] }

/-- Concrete guest session state. -/
def guestState : BootState :=
  { user := "Guest", csrf_token := none }

/-- Concrete authenticated scenario: the registry holds a non-child,
non-singleton doctype, but the external session layer's payload lists
no object types; the wrapper adds nothing. -/
def authEnv : BootEnv :=
  { sessions_get := fun u =>
      { user := u
        doc_types := []
        modules := []
        message := "" }
    registered := [{ name := "ToDo", istable := false, issingle := false }] }

/-- Concrete authenticated session state. -/
def authState : BootState :=
  { user := "Administrator", csrf_token := some "existing-token" }

/- ===================== get_new_doc ===================== -/

/-- A child-table row: a plain key-value record.  `doc.append(fieldname, {})`
appends the empty row `[]`. -/
abbrev Row := List (String × String)

/-- First-match lookup of a child-table field's row list in a
document's table map; a field never written reads as the empty list,
as a fresh document's child tables do. -/
def lookupRows : List (String × List Row) → String → List Row
  | [], _ => []
  | (k, rs) :: rest, fn => if k = fn then rs else lookupRows rest fn

/-- Append one row at the end of the row list held under `fn`,
creating the entry when absent — the behaviour of `doc.append(fn, row)`
on a document attribute holding a list. -/
def appendRow : List (String × List Row) → String → Row → List (String × List Row)
  | [], fn, r => [(fn, [r])]
  | (k, rs) :: rest, fn, r =>
      if k = fn then (k, rs ++ [r]) :: rest
      else (k, rs) :: appendRow rest fn r

/-- An unsaved document instance as this layer sees it: its doctype,
its scalar field values (opaque to this layer) and its child-table
fields (fieldname to row list).  The source's final `doc.as_dict()`
serializes exactly this data, so the model uses the same
representation for the document and its dict form. -/
structure Doc where
  doctype : String
  values : List (String × String)
  tables : List (String × List Row)
deriving DecidableEq

/-- `doc.append(fieldname, row)` from the source loop. -/
def Doc.append (d : Doc) (fn : String) (r : Row) : Doc :=
  { d with tables := appendRow d.tables fn r }

/-- The row list a document holds under a child-table fieldname. -/
def Doc.getTable (d : Doc) (fn : String) : List Row :=
  lookupRows d.tables fn

/-- One field descriptor of a doctype's schema (`meta.fields` entry):
fieldname, fieldtype, and the `reqd` flag, an integer whose Python
truthiness the source tests (`df.reqd`). -/
structure DocField where
  fieldname : String
  fieldtype : String
  reqd : Nat
deriving DecidableEq

/-- A doctype's schema as returned by `frappe.get_meta`. -/
structure DocMeta where
  fields : List DocField
deriving DecidableEq

/-- The one error raised by this layer: `frappe.PermissionError`
carrying the localized message `frappe.throw` is given. -/
inductive FrappeError where
  | PermissionError (msg : String)
deriving DecidableEq

/-- Trace of the external framework calls `get_new_doc` performs, in
order, so that "never invoked" claims are observable. -/
inductive ExtCall where
  | has_permission (doctype ptype : String)
  | new_doc (doctype : String)
  | run_onload
  | get_meta (doctype : String)
deriving DecidableEq

/-- The external framework services `get_new_doc` reaches:
`has_permission` is `frappe.has_permission(doctype, ptype)`;
`new_doc` is `frappe.new_doc(doctype)`, the default-resolving
constructor; `onload` is the effect of `doc.run_method('onload')`,
an arbitrary document transformer; `get_meta` is
`frappe.get_meta(doctype)`; `translate` is the localization
function `_`. -/
structure NewDocEnv where
  has_permission : String → String → Bool
  new_doc : String → Doc
  onload : Doc → Doc
  get_meta : String → DocMeta
  translate : String → String

/-- The body of the source's child-table loop:

```python
if df.fieldtype == "Table" and df.reqd:
    doc.append(df.fieldname, {})
```
-/
def appendMandatoryStep (d : Doc) (df : DocField) : Doc :=
  if df.fieldtype = "Table" ∧ df.reqd ≠ 0 then d.append df.fieldname [] else d

/-- `get_new_doc` from `api.py`, translated line by line:

```python
if not frappe.has_permission(doctype, "create"):
    frappe.throw(_("No permission to create {0}").format(doctype), frappe.PermissionError)
doc = frappe.new_doc(doctype)
doc.run_method('onload')
if with_mandatory_children:
    meta = frappe.get_meta(doctype)
    for df in meta.fields:
        if df.fieldtype == "Table" and df.reqd:
            doc.append(df.fieldname, {})
return doc.as_dict()
```

The result is the returned document (or the raised permission error)
paired with the trace of external calls made. -/
def get_new_doc (env : NewDocEnv) (doctype : String)
    (with_mandatory_children : Bool := false) :
    Except FrappeError Doc × List ExtCall :=
  if ! env.has_permission doctype "create" then
    (Except.error (FrappeError.PermissionError
      ((env.translate "No permission to create {0}").replace "{0}" doctype)),
     [ExtCall.has_permission doctype "create"])
  else
    let doc := env.new_doc doctype
    let doc := env.onload doc
    if with_mandatory_children then
      let meta := env.get_meta doctype
      let doc := meta.fields.foldl appendMandatoryStep doc
      (Except.ok doc,
       [ExtCall.has_permission doctype "create", ExtCall.new_doc doctype,
        ExtCall.run_onload, ExtCall.get_meta doctype])
    else
      (Except.ok doc,
       [ExtCall.has_permission doctype "create", ExtCall.new_doc doctype,
        ExtCall.run_onload])

/-- Concrete environment in which the caller lacks create-capability
on every doctype. -/
def deniedEnv : NewDocEnv :=
  { has_permission := fun _ _ => false
    new_doc := fun dt => { doctype := dt, values := [], tables := [] }
    onload := id
    get_meta := fun _ => { fields := [] }
    translate := fun s => s }

/-- Concrete environment with full create-capability whose schema for
any doctype has exactly one required `Table` field (`items`), next to
a required field of another table-like type (`Table MultiSelect`), a
required non-table field, and a non-required `Table` field. -/
def scaffoldEnv : NewDocEnv :=
  { has_permission := fun _ _ => true
    new_doc := fun dt => { doctype := dt, values := [], tables := [] }
    onload := id
    get_meta := fun _ =>
      { fields :=
          [ { fieldname := "items", fieldtype := "Table", reqd := 1 }
          , { fieldname := "tags", fieldtype := "Table MultiSelect", reqd := 1 }
          , { fieldname := "title", fieldtype := "Data", reqd := 1 }
          , { fieldname := "notes", fieldtype := "Table", reqd := 0 } ] }
    translate := fun s => s }

/- ===================== theorems: get_csrf_token ===================== -/

/-- Claim C5 (confirmed): when the session's token field is absent
(falsy), `get_csrf_token` draws a fresh value from the framework's
secure hash generator, stores it in the session data bag, forces
exactly one immediate session persist unless the test-mode flag is
set (and none when it is set), and returns the newly created token. -/
theorem c5_creates_and_persists_token (s : CsrfState)
    (h : pyTruthy s.csrf_token = false) :
    (get_csrf_token s).1 = some (s.hashGen s.hashCount) ∧
    ((get_csrf_token s).2).csrf_token = some (s.hashGen s.hashCount) ∧
    ((get_csrf_token s).2).hashCount = s.hashCount + 1 ∧
    (s.in_test = false →
      ((get_csrf_token s).2).session_updates = s.session_updates + 1) ∧
    (s.in_test = true →
      ((get_csrf_token s).2).session_updates = s.session_updates) := by
  cases hin : s.in_test <;> simp [get_csrf_token, h, hin]

/-- Witness for C5: on a concrete fresh session outside test mode the
theorem applies and yields the freshly drawn token and one persist. -/
theorem c5_creates_and_persists_token_witness :
    (get_csrf_token csrfFreshState).1
      = some (csrfFreshState.hashGen csrfFreshState.hashCount) ∧
    ((get_csrf_token csrfFreshState).2).csrf_token
      = some (csrfFreshState.hashGen csrfFreshState.hashCount) ∧
    ((get_csrf_token csrfFreshState).2).hashCount
      = csrfFreshState.hashCount + 1 ∧
    (csrfFreshState.in_test = false →
      ((get_csrf_token csrfFreshState).2).session_updates
        = csrfFreshState.session_updates + 1) ∧
    (csrfFreshState.in_test = true →
      ((get_csrf_token csrfFreshState).2).session_updates
        = csrfFreshState.session_updates) :=
  c5_creates_and_persists_token csrfFreshState rfl

/-- Claim C6 (confirmed): on a session with no prior token, two
successive calls to `get_csrf_token` return the same token, provided
the external secure generator returns a truthy (non-empty) string —
which a secure hash generator always does. -/
theorem c6_second_call_returns_same_token (s : CsrfState)
    (h : pyTruthy s.csrf_token = false)
    (hh : s.hashGen s.hashCount ≠ "") :
    (get_csrf_token (get_csrf_token s).2).1 = (get_csrf_token s).1 := by
  have h1 : pyTruthy (some (s.hashGen s.hashCount)) = true := by
    simp [pyTruthy, hh]
  cases hin : s.in_test <;> simp [get_csrf_token, h, hin, h1]

/-- Witness for C6: on a concrete fresh session the second call
returns the token created by the first call. -/
theorem c6_second_call_returns_same_token_witness :
    (get_csrf_token (get_csrf_token csrfFreshState).2).1
      = (get_csrf_token csrfFreshState).1 :=
  c6_second_call_returns_same_token csrfFreshState rfl (by decide)

/-- Claim C7 (confirmed): on a session whose token field already
holds a (truthy) token, `get_csrf_token` returns that token unchanged
and leaves the whole state untouched — in particular the token field
is unmodified and no forced session persist happens. -/
theorem c7_existing_token_frame (s : CsrfState)
    (h : pyTruthy s.csrf_token = true) :
    get_csrf_token s = (s.csrf_token, s) := by
  simp [get_csrf_token, h]

/-- Witness for C7: a concrete session holding a token gets it back
with the state unchanged. -/
theorem c7_existing_token_frame_witness :
    get_csrf_token csrfHeldState = (csrfHeldState.csrf_token, csrfHeldState) :=
  c7_existing_token_frame csrfHeldState rfl

/-- Claim C9 (confirmed): after any successful `get_csrf_token` call —
on the token-creation path as well as the existing-token path — the
session's token field is a non-empty string and the value returned
under `csrf_token` is exactly that stored field.  On the creation
path this needs the external generator to return a non-empty string,
which a secure hash generator always does. -/
theorem c9_token_postcondition (s : CsrfState)
    (hh : pyTruthy s.csrf_token = false → s.hashGen s.hashCount ≠ "") :
    ∃ t, (get_csrf_token s).1 = some t ∧ t ≠ "" ∧
      ((get_csrf_token s).2).csrf_token = some t := by
  cases h : pyTruthy s.csrf_token with
  | false =>
      refine ⟨s.hashGen s.hashCount, ?_, hh h, ?_⟩ <;>
        cases hin : s.in_test <;> simp [get_csrf_token, h, hin]
  | true =>
      match ht : s.csrf_token with
      | none => simp [pyTruthy, ht] at h
      | some t =>
          have htne : t ≠ "" := by
            intro he
            simp [pyTruthy, ht, he] at h
          have h' : pyTruthy (some t) = true := ht ▸ h
          exact ⟨t, by simp [get_csrf_token, ht, h'], htne,
            by simp [get_csrf_token, ht, h']⟩

/-- Witness for C9 on a concrete fresh session. -/
theorem c9_token_postcondition_witness :
    ∃ t, (get_csrf_token csrfFreshState).1 = some t ∧ t ≠ "" ∧
      ((get_csrf_token csrfFreshState).2).csrf_token = some t :=
  c9_token_postcondition csrfFreshState (fun _ => by decide)

/- ===================== theorems: get_boot ===================== -/

/-- Claim C1 counterexample: the claim asserts that for a guest caller
`get_boot` returns a minimal payload with an empty object-type list
and empty module mapping.  In the concrete guest scenario the external
session layer hands back a payload with a non-empty object-type list
and module mapping, and `get_boot` forwards it unchanged, so the claim
as stated is false of this code. -/
theorem c1_guest_minimal_payload_counterexample :
    guestState.user = "Guest" ∧
    ((get_boot guestEnv guestState).1).doc_types ≠ [] ∧
    ((get_boot guestEnv guestState).1).modules ≠ [] := by
  decide

/-- Claim C1 (corrected): for a guest caller, `get_boot` returns
exactly the external session layer's payload for the guest identity,
unmodified — the identity marker, object-type list and module mapping
are whatever that layer supplies, this layer adding no guest-specific
branch — and it issues no anti-forgery token: the session state,
including the token field, is returned untouched. -/
theorem c1_guest_raw_delegation (env : BootEnv) (s : BootState)
    (h : s.user = "Guest") :
    get_boot env s = (env.sessions_get "Guest", s) := by
  simp [get_boot, h]

/-- Witness for the corrected C1 on the concrete guest scenario. -/
theorem c1_guest_raw_delegation_witness :
    get_boot guestEnv guestState = (guestEnv.sessions_get "Guest", guestState) :=
  c1_guest_raw_delegation guestEnv guestState rfl

/-- Claim C2 counterexample: the claim asserts that for an
authenticated caller the payload's object-type list contains every
non-child, non-singleton registered object type.  In the concrete
authenticated scenario the registry holds the non-child, non-singleton
doctype `"ToDo"`, yet the list `get_boot` returns does not contain it
(the wrapper adds nothing to the external payload), so the claim as
stated is false of this code. -/
theorem c2_complete_doctype_list_counterexample :
    authState.user ≠ "Guest" ∧
    ({ name := "ToDo", istable := false, issingle := false } : RegDocType)
      ∈ authEnv.registered ∧
    "ToDo" ∉ ((get_boot authEnv authState).1).doc_types := by
  decide

/-- Claim C2 (corrected): for an authenticated caller, the
object-type list in the payload `get_boot` returns is exactly the
list in the external session layer's payload — this layer fetches no
doctype list of its own, applies no ordering and bypasses no page-size
cap, because it performs no list query at all. -/
theorem c2_doctype_list_is_external (env : BootEnv) (s : BootState)
    (_h : s.user ≠ "Guest") :
    ((get_boot env s).1).doc_types = (env.sessions_get s.user).doc_types := by
  simp [get_boot]

/-- Witness for the corrected C2 on the concrete authenticated
scenario. -/
theorem c2_doctype_list_is_external_witness :
    ((get_boot authEnv authState).1).doc_types
      = (authEnv.sessions_get authState.user).doc_types :=
  c2_doctype_list_is_external authEnv authState (by decide)

/-- Claim C8 (confirmed): for every caller, guest or authenticated,
`get_boot` returns exactly the value produced by the external
session-initialization lookup (`frappe.sessions.get()`), with no
modification, no added object-type list, no guest-specific branch in
this layer, and no change to the session state. -/
theorem c8_boot_refines_sessions_get :
    ∀ (env : BootEnv) (s : BootState),
      get_boot env s = get_boot_unmodified env s :=
  fun _ _ => rfl

/- ===================== theorems: get_new_doc ===================== -/

/-- Appending a row under `fn` puts it at the end of the row list held
under `fn`. -/
theorem lookupRows_appendRow_self (ts : List (String × List Row))
    (fn : String) (r : Row) :
    lookupRows (appendRow ts fn r) fn = lookupRows ts fn ++ [r] := by
  induction ts with
  | nil => simp [appendRow, lookupRows]
  | cons p rest ih =>
      obtain ⟨k, rs⟩ := p
      by_cases hk : k = fn
      · simp [appendRow, lookupRows, hk]
      · simp [appendRow, lookupRows, hk, ih]

/-- Appending a row under one fieldname leaves every other fieldname's
row list unchanged. -/
theorem lookupRows_appendRow_ne (ts : List (String × List Row))
    (fn fn' : String) (r : Row) (h : fn' ≠ fn) :
    lookupRows (appendRow ts fn' r) fn = lookupRows ts fn := by
  induction ts with
  | nil => simp [appendRow, lookupRows, h]
  | cons p rest ih =>
      obtain ⟨k, rs⟩ := p
      by_cases hk : k = fn'
      · subst hk
        simp [appendRow, lookupRows, h]
      · simp [appendRow, lookupRows, hk, ih]

/-- `Doc.append` specification on the appended fieldname. -/
theorem Doc.getTable_append_self (d : Doc) (fn : String) (r : Row) :
    (d.append fn r).getTable fn = d.getTable fn ++ [r] :=
  lookupRows_appendRow_self d.tables fn r

/-- `Doc.append` frame condition on every other fieldname. -/
theorem Doc.getTable_append_ne (d : Doc) (fn fn' : String) (r : Row)
    (h : fn' ≠ fn) :
    (d.append fn' r).getTable fn = d.getTable fn :=
  lookupRows_appendRow_ne d.tables fn fn' r h

/-- Running the source's child-table loop over a field list appends,
under each fieldname, one empty row per required `Table` field with
that fieldname, after whatever the document already held there. -/
theorem getTable_foldl_appendMandatory (fields : List DocField)
    (doc : Doc) (fn : String) :
    (fields.foldl appendMandatoryStep doc).getTable fn =
      doc.getTable fn ++ List.replicate
        (fields.countP (fun df => decide (df.fieldname = fn) &&
          decide (df.fieldtype = "Table" ∧ df.reqd ≠ 0))) ([] : Row) := by
  induction fields generalizing doc with
  | nil => simp
  | cons df rest ih =>
      rw [List.foldl_cons, ih]
      by_cases hb : df.fieldtype = "Table" ∧ df.reqd ≠ 0
      · by_cases hn : df.fieldname = fn
        · rw [appendMandatoryStep, if_pos hb, hn,
            Doc.getTable_append_self, List.countP_cons]
          simp [hb, hn, List.replicate_succ, List.append_assoc]
        · rw [appendMandatoryStep, if_pos hb,
            Doc.getTable_append_ne _ _ _ _ hn, List.countP_cons]
          simp [hn]
      · rw [appendMandatoryStep, if_neg hb, List.countP_cons]
        simp [hb]

/-- Claim C3 (confirmed): when the caller lacks create-capability on
the doctype, `get_new_doc` raises `frappe.PermissionError` carrying
the localized message `No permission to create {doctype}`, and
performs no construction: the trace holds only the permission check —
the default-resolving constructor, the onload hook and the metadata
lookup are never invoked, and no document state is created. -/
theorem c3_permission_denied (env : NewDocEnv) (dt : String) (wmc : Bool)
    (h : env.has_permission dt "create" = false) :
    get_new_doc env dt wmc =
      (Except.error (FrappeError.PermissionError
        ((env.translate "No permission to create {0}").replace "{0}" dt)),
       [ExtCall.has_permission dt "create"]) ∧
    ExtCall.new_doc dt ∉ (get_new_doc env dt wmc).2 ∧
    ExtCall.run_onload ∉ (get_new_doc env dt wmc).2 ∧
    ExtCall.get_meta dt ∉ (get_new_doc env dt wmc).2 := by
  simp [get_new_doc, h]

/-- Witness for C3 on a concrete environment denying every
capability. -/
theorem c3_permission_denied_witness :
    get_new_doc deniedEnv "Invoice" true =
      (Except.error (FrappeError.PermissionError
        ((deniedEnv.translate "No permission to create {0}").replace "{0}" "Invoice")),
       [ExtCall.has_permission "Invoice" "create"]) ∧
    ExtCall.new_doc "Invoice" ∉ (get_new_doc deniedEnv "Invoice" true).2 ∧
    ExtCall.run_onload ∉ (get_new_doc deniedEnv "Invoice" true).2 ∧
    ExtCall.get_meta "Invoice" ∉ (get_new_doc deniedEnv "Invoice" true).2 :=
  c3_permission_denied deniedEnv "Invoice" true rfl

/-- Claim C4 (confirmed): for a doctype whose schema has exactly one
required `Table` (child-table) field, and a caller with
create-capability, `get_new_doc` with `with_mandatory_children = true`
returns a document with exactly one empty row in that field, while the
call with the flag omitted (default `false`) returns zero rows there —
given that the freshly constructed, onloaded instance starts with no
rows in that field. -/
theorem c4_mandatory_child_rows (env : NewDocEnv) (dt : String) (f0 : DocField)
    (hp : env.has_permission dt "create" = true)
    (hf : (env.get_meta dt).fields.filter
        (fun df => decide (df.fieldtype = "Table" ∧ df.reqd ≠ 0)) = [f0])
    (hb : (env.onload (env.new_doc dt)).getTable f0.fieldname = []) :
    Except.map (fun d => d.getTable f0.fieldname) (get_new_doc env dt true).1
      = Except.ok [([] : Row)] ∧
    Except.map (fun d => d.getTable f0.fieldname) (get_new_doc env dt).1
      = Except.ok ([] : List Row) := by
  constructor
  · have hcount :
        (env.get_meta dt).fields.countP
          (fun df => decide (df.fieldname = f0.fieldname) &&
            decide (df.fieldtype = "Table" ∧ df.reqd ≠ 0)) = 1 := by
      rw [← List.countP_filter, hf]
      simp [List.countP_cons]
    have hfold := getTable_foldl_appendMandatory (env.get_meta dt).fields
      (env.onload (env.new_doc dt)) f0.fieldname
    rw [hb, hcount] at hfold
    simp only [get_new_doc, hp]
    simp [Except.map, hfold]
  · simp only [get_new_doc, hp]
    simp [Except.map, hb]

/-- Witness for C4 on the concrete scaffolding environment, whose
schema has `items` as its only required `Table` field. -/
theorem c4_mandatory_child_rows_witness :
    Except.map (fun d => d.getTable "items") (get_new_doc scaffoldEnv "Invoice" true).1
      = Except.ok [([] : Row)] ∧
    Except.map (fun d => d.getTable "items") (get_new_doc scaffoldEnv "Invoice").1
      = Except.ok ([] : List Row) :=
  c4_mandatory_child_rows scaffoldEnv "Invoice"
    { fieldname := "items", fieldtype := "Table", reqd := 1 }
    rfl (by decide) rfl

/-- Claim C10 (confirmed): with `with_mandatory_children` set and the
permission check passed, the returned document's rows under each
fieldname are exactly the rows of the constructed-then-onloaded
instance followed by one appended empty row per schema field with that
fieldname whose fieldtype is exactly `"Table"` and whose `reqd` flag
is truthy — required fields of any other fieldtype, including other
table-like types such as `"Table MultiSelect"`, contribute nothing —
and the onload hook runs on the document before any row is appended,
since the appended rows follow the onloaded instance's rows. -/
theorem c10_append_only_required_tables (env : NewDocEnv) (dt : String)
    (hp : env.has_permission dt "create" = true) :
    ∃ d, (get_new_doc env dt true).1 = Except.ok d ∧
      ∀ fn, d.getTable fn =
        (env.onload (env.new_doc dt)).getTable fn ++
          List.replicate ((env.get_meta dt).fields.countP
            (fun df => decide (df.fieldname = fn) &&
              decide (df.fieldtype = "Table" ∧ df.reqd ≠ 0))) ([] : Row) := by
  refine ⟨(env.get_meta dt).fields.foldl appendMandatoryStep
    (env.onload (env.new_doc dt)), ?_, fun fn => getTable_foldl_appendMandatory _ _ _⟩
  simp [get_new_doc, hp]

/-- Witness for C10 on the concrete scaffolding environment. -/
theorem c10_append_only_required_tables_witness :
    ∃ d, (get_new_doc scaffoldEnv "Invoice" true).1 = Except.ok d ∧
      ∀ fn, d.getTable fn =
        (scaffoldEnv.onload (scaffoldEnv.new_doc "Invoice")).getTable fn ++
          List.replicate ((scaffoldEnv.get_meta "Invoice").fields.countP
            (fun df => decide (df.fieldname = fn) &&
              decide (df.fieldtype = "Table" ∧ df.reqd ≠ 0))) ([] : Row) :=
  c10_append_only_required_tables scaffoldEnv "Invoice" rfl
